import Mathlib

/-!
# Task synchroniser of `src/js/components/Home.jsx`

A shallow embedding of the asynchronous operations of the `TodoApp` component
(`createUser`, `loadTasks`, `addTask`, `deleteTask`, `clearAllTasks`) and the
properties of the synchronisation contract between the component state and the
remote store.

The component state is passed explicitly.  The remote store is an arbitrary
transition function `serve : R → Request → R × Settled` over an arbitrary type
of remote states: it decides how every `fetch` settles.  JavaScript exceptions
and promise rejections are the `error` results of `Except`.
-/

namespace TodoApp

/-! ## Data model -/

/-- One element of the `todos` array returned by the remote store. -/
structure Task where
  id : Nat
  label : String
  is_done : Bool
deriving DecidableEq, Repr

/-- The four `useState` cells of the component (lines 5-8). -/
structure Session where
  tasks : List Task
  inputValue : String
  loading : Bool
  error : String
deriving DecidableEq, Repr

/-- HTTP method of a `fetch` call; a call without options is a `GET`. -/
inductive Method where
  | GET
  | POST
  | DELETE
deriving DecidableEq, Repr

/-- The object `newTask` of `addTask` (lines 68-71), sent as `JSON.stringify(newTask)`. -/
structure NewTask where
  label : String
  is_done : Bool
deriving DecidableEq, Repr

/-- The arguments of one `fetch` call. `jsonHeader` records the
`"Content-Type": "application/json"` header. -/
structure Request where
  method : Method
  url : String
  body : Option NewTask
  jsonHeader : Bool
deriving DecidableEq, Repr

/-- What `response.json()` resolves to, as far as the component looks at it:
`null` (on which the property access `data.todos` throws) or any other value,
with its `todos` property: `none` when the property is absent or falsy, so that
`data.todos || []` is `[]`. A truthy `todos` is an array of tasks, the only
kind of value the `tasks` cell is typed to hold. -/
inductive Data where
  | null
  | object (todos : Option (List Task))
deriving DecidableEq, Repr

/-- Body of a response: text on which `response.json()` rejects, or parsed data. -/
inductive Body where
  | unparsable
  | parsed (data : Data)
deriving DecidableEq, Repr

/-- The `Response` a `fetch` promise is fulfilled with. -/
structure Response where
  status : Nat
  body : Body
deriving DecidableEq, Repr

/-- The getter `response.ok`: the status is in the range 200-299. -/
def Response.ok (r : Response) : Bool :=
  decide (200 ≤ r.status) && decide (r.status ≤ 299)

/-- How the promise returned by `fetch` settles: fulfilled with a response
(whatever its status) or rejected (network-level failure). -/
inductive Settled where
  | fulfilled (response : Response)
  | rejected (reason : String)
deriving DecidableEq, Repr

/-- Everything an operation can touch: the component state, the state of the
remote store, the requests issued so far (oldest first) and the console. -/
structure World (R : Type) where
  session : Session
  remote : R
  sent : List Request
  console : List String

/-! ## Asynchronous actions -/

/-- An `async` computation: from a world to a completion (`ok`) or a raised
exception (`error`), and the world reached. -/
def Act (R : Type) (α : Type) : Type :=
  World R → Except String α × World R

namespace Act

variable {R : Type} {α β : Type}

/-- Normal completion with a value. -/
def ret (a : α) : Act R α := fun w => (Except.ok a, w)

/-- Sequencing; an exception skips the continuation. -/
def seq (m : Act R α) (f : α → Act R β) : Act R β := fun w =>
  match (m w).1 with
  | Except.ok a => f a (m w).2
  | Except.error e => (Except.error e, (m w).2)

/-- The statement `throw`. -/
def raise (e : String) : Act R α := fun w => (Except.error e, w)

/-- The statement `try { body } catch (error) { handler }`. -/
def catching (body : Act R α) (handler : String → Act R α) : Act R α := fun w =>
  match (body w).1 with
  | Except.ok a => (Except.ok a, (body w).2)
  | Except.error e => handler e (body w).2

/-- The statement `try { body } finally { fin }`: `fin` runs on every exit of `body`. -/
def finallyDo (body : Act R α) (fin : Act R Unit) : Act R α := fun w =>
  match (fin (body w).2).1 with
  | Except.ok _ => ((body w).1, (fin (body w).2).2)
  | Except.error e => (Except.error e, (fin (body w).2).2)

instance : Monad (Act R) where
  pure := ret
  bind := seq

end Act

open Act

variable {R : Type}

/-! ## State setters, console, fetch -/

def setTasks (tasks : List Task) : Act R Unit := fun w =>
  (Except.ok (), { w with session := { w.session with tasks := tasks } })

def setInputValue (v : String) : Act R Unit := fun w =>
  (Except.ok (), { w with session := { w.session with inputValue := v } })

def setLoading (b : Bool) : Act R Unit := fun w =>
  (Except.ok (), { w with session := { w.session with loading := b } })

def setError (msg : String) : Act R Unit := fun w =>
  (Except.ok (), { w with session := { w.session with error := msg } })

/-- Reads the cell `tasks`. -/
def getTasks : Act R (List Task) := fun w => (Except.ok w.session.tasks, w)

/-- Reads the cell `inputValue`. -/
def getInputValue : Act R String := fun w => (Except.ok w.session.inputValue, w)

/-- The calls `console.log(msg, ...)` and `console.error(msg, ...)`. -/
def consoleLog (msg : String) : Act R Unit := fun w =>
  (Except.ok (), { w with console := w.console ++ [msg] })

/-- The call `fetch(...)` without `await`: the request is issued and the remote
store decides how its promise settles. -/
def startFetch (serve : R → Request → R × Settled) (req : Request) :
    World R → Settled × World R := fun w =>
  ((serve w.remote req).2, { w with remote := (serve w.remote req).1, sent := w.sent ++ [req] })

/-- The operator `await` on a settled promise: a rejection is raised. -/
def await (p : Settled) : Act R Response :=
  match p with
  | Settled.fulfilled r => ret r
  | Settled.rejected e => raise e

/-- The expression `await fetch(...)`. -/
def fetch (serve : R → Request → R × Settled) (req : Request) : Act R Response := fun w =>
  await (startFetch serve req w).1 (startFetch serve req w).2

/-- The expression `await response.json()`: rejects on a body that does not parse. -/
def json (response : Response) : Act R Data :=
  match response.body with
  | Body.unparsable => raise "SyntaxError"
  | Body.parsed d => ret d

/-- The expression `data.todos || []`; the property access throws on `null`. -/
def todosOrEmpty (data : Data) : Act R (List Task) :=
  match data with
  | Data.null => raise "TypeError"
  | Data.object none => ret []
  | Data.object (some l) => ret l

/-- The array `tasks.map(task => fetch(...))`: every request is issued, in
order, before any of the promises is awaited. -/
def startAll (serve : R → Request → R × Settled) :
    List Request → World R → List Settled × World R
  | [], w => ([], w)
  | req :: rest, w =>
    ((startFetch serve req w).1 :: (startAll serve rest (startFetch serve req w).2).1,
      (startAll serve rest (startFetch serve req w).2).2)

/-- The expression `await Promise.all(promises)`: raises when one of the
promises is rejected, otherwise gives the responses. -/
def promiseAll : List Settled → Act R (List Response)
  | [] => ret []
  | Settled.fulfilled r :: ps => seq (promiseAll ps) (fun rs => ret (r :: rs))
  | Settled.rejected e :: _ => raise e

/-! ## JavaScript `trim` -/

/-- White space and line terminators removed by `String.prototype.trim`. -/
def isJsWhiteSpace (c : Char) : Bool :=
  c.toNat = 0x09 || c.toNat = 0x0A || c.toNat = 0x0B || c.toNat = 0x0C || c.toNat = 0x0D ||
  c.toNat = 0x20 || c.toNat = 0xA0 || c.toNat = 0x1680 ||
  (decide (0x2000 ≤ c.toNat) && decide (c.toNat ≤ 0x200A)) ||
  c.toNat = 0x2028 || c.toNat = 0x2029 || c.toNat = 0x202F || c.toNat = 0x205F ||
  c.toNat = 0x3000 || c.toNat = 0xFEFF

/-- The method `trim` on the characters of a string. -/
def trimChars (cs : List Char) : List Char :=
  ((cs.dropWhile isJsWhiteSpace).reverse.dropWhile isJsWhiteSpace).reverse

/-- The method `String.prototype.trim`. -/
def trim (s : String) : String := String.mk (trimChars s.data)

/-! ## The component -/

/-- Line 10. -/
def username : String := "alesanchezr"

/-- Line 11. -/
def baseUrl : String := "https://playground.4geeks.com/todo"

/-- The request of `createUser` (lines 16-21). -/
def createUserRequest : Request :=
  { method := Method.POST, url := baseUrl ++ "/users/" ++ username, body := none,
    jsonHeader := true }

/-- The request of `loadTasks` (line 38). -/
def loadTasksRequest : Request :=
  { method := Method.GET, url := baseUrl ++ "/users/" ++ username, body := none,
    jsonHeader := false }

/-- The request of `addTask` (lines 74-80). -/
def addTaskRequest (newTask : NewTask) : Request :=
  { method := Method.POST, url := baseUrl ++ "/todos/" ++ username, body := some newTask,
    jsonHeader := true }

/-- The request of `deleteTask` and of each element of `clearAllTasks` (lines 105-110, 136-141). -/
def deleteRequest (id : Nat) : Request :=
  { method := Method.DELETE, url := baseUrl ++ "/todos/" ++ toString id, body := none,
    jsonHeader := true }

/-- Function `createUser`, lines 14-31. -/
def createUser (serve : R → Request → R × Settled) : Act R Unit :=
  catching
    (do
      let response ← fetch serve createUserRequest
      if response.ok then
        consoleLog "User created successfully"
      else if response.status = 400 then
        consoleLog "User already exists"
      else
        pure ())
    (fun _ => consoleLog "Error creating user:")

/-- Function `loadTasks`, lines 34-56. -/
def loadTasks (serve : R → Request → R × Settled) : Act R Unit := do
  setLoading true
  setError ""
  finallyDo
    (catching
      (do
        let response ← fetch serve loadTasksRequest
        if response.ok then
          let data ← json response
          let todos ← todosOrEmpty data
          setTasks todos
        else if response.status = 404 then
          createUser serve
          setTasks []
        else
          raise "Failed to load tasks")
      (fun _ => do
        setError "Failed to load tasks"
        consoleLog "Error loading tasks:"))
    (setLoading false)

/-- Function `addTask`, lines 63-98. -/
def addTask (serve : R → Request → R × Settled) : Act R Unit := do
  let inputValue ← getInputValue
  if trim inputValue ≠ "" then
    setLoading true
    setError ""
    let newTask : NewTask := { label := trim inputValue, is_done := false }
    finallyDo
      (catching
        (do
          let response ← fetch serve (addTaskRequest newTask)
          if response.ok then
            let _data ← json response
            consoleLog "Task added:"
            setInputValue ""
            loadTasks serve
          else
            raise "Failed to add task")
        (fun _ => do
          setError "Failed to add task"
          consoleLog "Error adding task:"))
      (setLoading false)
  else
    pure ()

/-- Function `deleteTask`, lines 100-125. -/
def deleteTask (serve : R → Request → R × Settled) (id : Nat) : Act R Unit := do
  setLoading true
  setError ""
  finallyDo
    (catching
      (do
        let response ← fetch serve (deleteRequest id)
        if response.ok then
          consoleLog "Task deleted successfully"
          loadTasks serve
        else
          raise "Failed to delete task")
      (fun _ => do
        setError "Failed to delete task"
        consoleLog "Error deleting task:"))
    (setLoading false)

/-- Function `clearAllTasks`, lines 127-154. -/
def clearAllTasks (serve : R → Request → R × Settled) : Act R Unit := do
  let tasks ← getTasks
  if tasks.length = 0 then
    pure ()
  else
    setLoading true
    setError ""
    finallyDo
      (catching
        (do
          let deletePromises ← (fun w =>
            (Except.ok (startAll serve (tasks.map fun task => deleteRequest task.id) w).1,
              (startAll serve (tasks.map fun task => deleteRequest task.id) w).2) : Act R (List Settled))
          let _ ← promiseAll deletePromises
          consoleLog "All tasks cleared"
          loadTasks serve)
        (fun _ => do
          setError "Failed to clear all tasks"
          consoleLog "Error clearing tasks:"))
      (setLoading false)

/-! ## Scripted remote store for concrete runs -/

/-- A remote store that answers the requests from a script, one entry per
request, and rejects once the script is used up. -/
def scripted : List Settled → Request → List Settled × Settled
  | [], _ => ([], Settled.rejected "TypeError: Failed to fetch")
  | p :: ps, _ => (ps, p)

/-- A world with the given component state and script, nothing issued yet. -/
def startWorld (s : Session) (script : List Settled) : World (List Settled) :=
  { session := s, remote := script, sent := [], console := [] }

/-! ## Requests issued in a row -/

/-- How the promises of a list of requests issued in order settle. -/
def outcomes (serve : R → Request → R × Settled) : R → List Request → List Settled
  | _, [] => []
  | r, req :: rest => (serve r req).2 :: outcomes serve (serve r req).1 rest

/-- The remote state after a list of requests issued in order. -/
def remoteAfter (serve : R → Request → R × Settled) : R → List Request → R
  | r, [] => r
  | r, req :: rest => remoteAfter serve (serve r req).1 rest

/-! ## Concrete data for the scenarios -/

def taskOne : Task := { id := 1, label := "buy milk", is_done := false }

def taskTwo : Task := { id := 2, label := "walk dog", is_done := false }

/-- A response with the given status and no JSON body. -/
def plain (status : Nat) : Settled :=
  Settled.fulfilled { status := status, body := Body.unparsable }

/-- A 200 response whose body is `{ "todos": [...] }`. -/
def todosResponse (todos : List Task) : Settled :=
  Settled.fulfilled { status := 200, body := Body.parsed (Data.object (some todos)) }

/-- A 201 response whose body is a JSON object without `todos`, such as a created task. -/
def created : Settled :=
  Settled.fulfilled { status := 201, body := Body.parsed (Data.object none) }

/-- A remote store that only keeps a list of account names: the creation POST
adds the account and answers 201 when it is absent, answers 400 when it is
there; every other request is rejected. -/
def accountStore (accounts : List String) (req : Request) : List String × Settled :=
  if req = createUserRequest then
    if username ∈ accounts then (accounts, plain 400) else (username :: accounts, plain 201)
  else (accounts, Settled.rejected "TypeError: Failed to fetch")

/-- The accounts held by an `accountStore`, as a set. -/
def accountSet (accounts : List String) : Set String := { u | u ∈ accounts }

/-- A world over an `accountStore`, nothing issued yet. -/
def accountWorld (s : Session) (accounts : List String) : World (List String) :=
  { session := s, remote := accounts, sent := [], console := [] }

/-- Two cached tasks, idle, as at the start of Scenario D. -/
def twoTasks : Session :=
  { tasks := [taskOne, taskTwo], inputValue := "", loading := false, error := "" }

/-- One cached task, text typed in the input, an earlier error shown, `loading` true. -/
def typing : Session :=
  { tasks := [taskOne], inputValue := " walk dog ", loading := true, error := "old" }

/-- A blank input while `loading` is true. -/
def blankBusy : Session :=
  { tasks := [taskOne], inputValue := "  ", loading := true, error := "" }

/-- An empty list while `loading` is true. -/
def emptyBusy : Session :=
  { tasks := [], inputValue := "x", loading := true, error := "" }

/-! ## Lemmas on the operations -/

/-- A GET answered 2xx with a JSON value other than `null`: the whole result of `loadTasks`. -/
theorem loadTasks_found (serve : R → Request → R × Settled) (w : World R) (resp : Response)
    (todos : Option (List Task))
    (h : (serve w.remote loadTasksRequest).2 = Settled.fulfilled resp)
    (hok : resp.ok = true) (hbody : resp.body = Body.parsed (Data.object todos)) :
    loadTasks serve w =
      (Except.ok (),
        { session := { tasks := todos.getD [], inputValue := w.session.inputValue,
                       loading := false, error := "" },
          remote := (serve w.remote loadTasksRequest).1,
          sent := w.sent ++ [loadTasksRequest],
          console := w.console }) := by
  cases todos <;>
  simp [loadTasks, bind, seq, finallyDo, catching, fetch, startFetch, await, h, hok, hbody, ret, json,
    todosOrEmpty, setTasks, setLoading, setError]

/-- A GET rejected, or answered outside 200-299 and not 404: the whole result of `loadTasks`. -/
theorem loadTasks_failed (serve : R → Request → R × Settled) (w : World R)
    (h : (∃ e, (serve w.remote loadTasksRequest).2 = Settled.rejected e) ∨
      (∃ resp, (serve w.remote loadTasksRequest).2 = Settled.fulfilled resp ∧
        resp.ok = false ∧ resp.status ≠ 404)) :
    loadTasks serve w =
      (Except.ok (),
        { session := { tasks := w.session.tasks, inputValue := w.session.inputValue,
                       loading := false, error := "Failed to load tasks" },
          remote := (serve w.remote loadTasksRequest).1,
          sent := w.sent ++ [loadTasksRequest],
          console := w.console ++ ["Error loading tasks:"] }) := by
  rcases h with ⟨e, h⟩ | ⟨resp, h, hok, h404⟩ <;>
  simp [loadTasks, bind, seq, finallyDo, catching, fetch, startFetch, await, h, *, ret, raise, json,
    todosOrEmpty, setTasks, setLoading, setError, consoleLog]

/-- A GET answered 2xx with a body that does not parse, or parses to `null`. -/
theorem loadTasks_badBody (serve : R → Request → R × Settled) (w : World R) (resp : Response)
    (h : (serve w.remote loadTasksRequest).2 = Settled.fulfilled resp)
    (hok : resp.ok = true)
    (hbody : resp.body = Body.unparsable ∨ resp.body = Body.parsed Data.null) :
    loadTasks serve w =
      (Except.ok (),
        { session := { tasks := w.session.tasks, inputValue := w.session.inputValue,
                       loading := false, error := "Failed to load tasks" },
          remote := (serve w.remote loadTasksRequest).1,
          sent := w.sent ++ [loadTasksRequest],
          console := w.console ++ ["Error loading tasks:"] }) := by
  rcases hbody with hbody | hbody <;>
  simp [loadTasks, bind, seq, finallyDo, catching, fetch, startFetch, await, h, *, ret, raise, json,
    todosOrEmpty, setTasks, setLoading, setError, consoleLog]

/-- The function `createUser` never raises. -/
theorem createUser_fst (serve : R → Request → R × Settled) (w : World R) :
    (createUser serve w).1 = Except.ok () := by
  simp only [createUser, bind, seq, catching, fetch, startFetch, await]
  cases hs : (serve w.remote createUserRequest).2 with
  | rejected e => simp [raise, consoleLog]
  | fulfilled resp =>
    by_cases hok : resp.ok = true
    · simp [ret, hok, consoleLog]
    · by_cases h4 : resp.status = 400 <;> simp [ret, hok, h4, consoleLog, pure]

/-- The function `createUser` leaves the component state alone. -/
theorem createUser_session (serve : R → Request → R × Settled) (w : World R) :
    (createUser serve w).2.session = w.session := by
  simp only [createUser, bind, seq, catching, fetch, startFetch, await]
  cases hs : (serve w.remote createUserRequest).2 with
  | rejected e => simp [raise, consoleLog]
  | fulfilled resp =>
    by_cases hok : resp.ok = true
    · simp [ret, hok, consoleLog]
    · by_cases h4 : resp.status = 400 <;> simp [ret, hok, h4, consoleLog, pure]

/-- The remote state after `createUser` is the one after its POST. -/
theorem createUser_remote (serve : R → Request → R × Settled) (w : World R) :
    (createUser serve w).2.remote = (serve w.remote createUserRequest).1 := by
  simp only [createUser, bind, seq, catching, fetch, startFetch, await]
  cases hs : (serve w.remote createUserRequest).2 with
  | rejected e => simp [raise, consoleLog]
  | fulfilled resp =>
    by_cases hok : resp.ok = true
    · simp [ret, hok, consoleLog]
    · by_cases h4 : resp.status = 400 <;> simp [ret, hok, h4, consoleLog, pure]

/-- The function `createUser` issues its POST and nothing else. -/
theorem createUser_sent (serve : R → Request → R × Settled) (w : World R) :
    (createUser serve w).2.sent = w.sent ++ [createUserRequest] := by
  simp only [createUser, bind, seq, catching, fetch, startFetch, await]
  cases hs : (serve w.remote createUserRequest).2 with
  | rejected e => simp [raise, consoleLog]
  | fulfilled resp =>
    by_cases hok : resp.ok = true
    · simp [ret, hok, consoleLog]
    · by_cases h4 : resp.status = 400 <;> simp [ret, hok, h4, consoleLog, pure]

/-- A GET answered 404: completion, component state, requests and remote state of `loadTasks`. -/
theorem loadTasks_notFound (serve : R → Request → R × Settled) (w : World R) (resp : Response)
    (h : (serve w.remote loadTasksRequest).2 = Settled.fulfilled resp)
    (h404 : resp.status = 404) :
    (loadTasks serve w).1 = Except.ok () ∧
    (loadTasks serve w).2.session =
      { tasks := [], inputValue := w.session.inputValue, loading := false, error := "" } ∧
    (loadTasks serve w).2.sent = w.sent ++ [loadTasksRequest, createUserRequest] ∧
    (loadTasks serve w).2.remote =
      (serve (serve w.remote loadTasksRequest).1 createUserRequest).1 := by
  have hok : resp.ok = false := by simp [Response.ok, h404]
  simp [loadTasks, bind, seq, finallyDo, catching, fetch, startFetch, await, h, hok, h404, ret,
    setLoading, setError, setTasks, createUser_fst, createUser_session, createUser_remote,
    createUser_sent]

/-- The function `loadTasks` never raises. -/
theorem loadTasks_fst (serve : R → Request → R × Settled) (w : World R) :
    (loadTasks serve w).1 = Except.ok () := by
  cases hs : (serve w.remote loadTasksRequest).2 with
  | rejected e => rw [loadTasks_failed serve w (Or.inl ⟨e, hs⟩)]
  | fulfilled resp =>
    by_cases hok : resp.ok = true
    · cases hb : resp.body with
      | unparsable => rw [loadTasks_badBody serve w resp hs hok (Or.inl hb)]
      | parsed d =>
        cases d with
        | null => rw [loadTasks_badBody serve w resp hs hok (Or.inr hb)]
        | object todos => rw [loadTasks_found serve w resp todos hs hok hb]
    · by_cases h4 : resp.status = 404
      · exact (loadTasks_notFound serve w resp hs h4).1
      · rw [loadTasks_failed serve w (Or.inr ⟨resp, hs, by simpa using hok, h4⟩)]

/-- The `finally` of `loadTasks` leaves `loading` false. -/
theorem loadTasks_loading (serve : R → Request → R × Settled) (w : World R) :
    (loadTasks serve w).2.session.loading = false := by
  simp [loadTasks, bind, seq, finallyDo, setLoading, setError]

/-- The promises of `startAll` settle as `outcomes` says. -/
theorem startAll_fst (serve : R → Request → R × Settled) (reqs : List Request) (w : World R) :
    (startAll serve reqs w).1 = outcomes serve w.remote reqs := by
  induction reqs generalizing w with
  | nil => rfl
  | cons req rest ih => simp [startAll, outcomes, ih, startFetch]

/-- The world after `startAll`: the requests are appended to `sent`, the component state is as before. -/
theorem startAll_snd (serve : R → Request → R × Settled) (reqs : List Request) (w : World R) :
    (startAll serve reqs w).2 =
      { session := w.session, remote := remoteAfter serve w.remote reqs,
        sent := w.sent ++ reqs, console := w.console } := by
  induction reqs generalizing w with
  | nil => simp [startAll, remoteAfter]
  | cons req rest ih => simp [startAll, remoteAfter, ih, startFetch]

/-- Awaiting does not change the world. -/
theorem promiseAll_snd (ps : List Settled) (w : World R) : (promiseAll ps w).2 = w := by
  induction ps with
  | nil => rfl
  | cons p ps ih =>
    cases p with
    | rejected e => rfl
    | fulfilled r =>
      simp only [promiseAll, seq]
      cases hp : (promiseAll ps w).1 <;> simp [ih, ret]

/-- When every promise is fulfilled, `Promise.all` resolves. -/
theorem promiseAll_ok (ps : List Settled) (w : World R)
    (h : ∀ p ∈ ps, ∃ resp, p = Settled.fulfilled resp) :
    ∃ rs, (promiseAll ps w).1 = Except.ok rs := by
  induction ps with
  | nil => exact ⟨[], rfl⟩
  | cons p ps ih =>
    obtain ⟨resp, rfl⟩ := h p (List.mem_cons_self _ _)
    obtain ⟨rs, hrs⟩ := ih (fun q hq => h q (List.mem_cons_of_mem _ hq))
    exact ⟨resp :: rs, by simp [promiseAll, seq, hrs, ret]⟩

/-- When one promise is rejected, `Promise.all` rejects. -/
theorem promiseAll_error (ps : List Settled) (w : World R)
    (h : ∃ e, Settled.rejected e ∈ ps) :
    ∃ e, (promiseAll ps w).1 = Except.error e := by
  induction ps with
  | nil => simp at h
  | cons p ps ih =>
    cases p with
    | rejected e => exact ⟨e, rfl⟩
    | fulfilled r =>
      obtain ⟨e, he⟩ := h
      have he2 : Settled.rejected e ∈ ps := by simpa using he
      obtain ⟨e2, h2⟩ := ih ⟨e, he2⟩
      exact ⟨e2, by simp [promiseAll, seq, h2]⟩

/-- Trimming a string made of white space gives the empty string. -/
theorem trim_of_whiteSpace (s : String) (h : ∀ c ∈ s.data, isJsWhiteSpace c = true) :
    trim s = "" := by
  have h1 : s.data.dropWhile isJsWhiteSpace = [] := by
    simpa [List.dropWhile_eq_nil_iff] using h
  simp [trim, trimChars, h1]

/-- The `finally` of `clearAllTasks` leaves `loading` false. -/
theorem clear_loading (serve : R → Request → R × Settled) (w : World R) :
    w.session.tasks ≠ [] → (clearAllTasks serve w).2.session.loading = false := by
  intro h
  simp [clearAllTasks, bind, seq, getTasks, h, finallyDo, setLoading, setError]

/-- The `finally` of `addTask` leaves `loading` false. -/
theorem add_loading (serve : R → Request → R × Settled) (w : World R) :
    trim w.session.inputValue ≠ "" → (addTask serve w).2.session.loading = false := by
  intro h
  simp [addTask, bind, seq, getInputValue, h, finallyDo, setLoading, setError]

/-- The function `addTask` never raises. -/
theorem add_fst (serve : R → Request → R × Settled) (w : World R) :
    (addTask serve w).1 = Except.ok () := by
  by_cases h : trim w.session.inputValue = ""
  · simp [addTask, bind, seq, getInputValue, h, pure, ret]
  · cases hs : (serve w.remote (addTaskRequest ⟨trim w.session.inputValue, false⟩)).2 with
    | rejected e =>
      simp [addTask, bind, seq, getInputValue, h, finallyDo, setLoading, setError, catching, fetch,
        startFetch, await, hs, raise, consoleLog]
    | fulfilled resp =>
      by_cases hok : resp.ok = true
      · cases hb : resp.body with
        | unparsable =>
          simp [addTask, bind, seq, getInputValue, h, finallyDo, setLoading, setError, catching, fetch,
            startFetch, await, hs, ret, hok, json, hb, raise, consoleLog]
        | parsed d =>
          simp [addTask, bind, seq, getInputValue, h, finallyDo, setLoading, setError, catching, fetch,
            startFetch, await, hs, ret, hok, json, hb, consoleLog, setInputValue, loadTasks_fst]
      · simp [addTask, bind, seq, getInputValue, h, finallyDo, setLoading, setError, catching, fetch,
          startFetch, await, hs, ret, hok, raise, consoleLog]

/-- The function `deleteTask` never raises. -/
theorem delete_fst (serve : R → Request → R × Settled) (w : World R) (id : Nat) :
    (deleteTask serve id w).1 = Except.ok () := by
  cases hs : (serve w.remote (deleteRequest id)).2 with
  | rejected e =>
    simp [deleteTask, bind, seq, finallyDo, setLoading, setError, catching, fetch,
      startFetch, await, hs, raise, consoleLog]
  | fulfilled resp =>
    by_cases hok : resp.ok = true
    · simp [deleteTask, bind, seq, finallyDo, setLoading, setError, catching, fetch,
        startFetch, await, hs, ret, hok, consoleLog, loadTasks_fst]
    · simp [deleteTask, bind, seq, finallyDo, setLoading, setError, catching, fetch,
        startFetch, await, hs, ret, hok, raise, consoleLog]

/-- The function `clearAllTasks` never raises. -/
theorem clear_fst (serve : R → Request → R × Settled) (w : World R) :
    (clearAllTasks serve w).1 = Except.ok () := by
  by_cases h : w.session.tasks = []
  · simp [clearAllTasks, bind, seq, getTasks, h, pure, ret]
  · cases hp : (promiseAll (outcomes serve w.remote (w.session.tasks.map fun task => deleteRequest task.id))
        { session := { tasks := w.session.tasks, inputValue := w.session.inputValue, loading := true, error := "" },
          remote := remoteAfter serve w.remote (w.session.tasks.map fun task => deleteRequest task.id),
          sent := w.sent ++ (w.session.tasks.map fun task => deleteRequest task.id),
          console := w.console }).1 with
    | error e =>
      simp [clearAllTasks, bind, seq, getTasks, h, finallyDo, setLoading, setError, catching,
        startAll_fst, startAll_snd, hp, consoleLog]
    | ok rs =>
      simp [clearAllTasks, bind, seq, getTasks, h, finallyDo, setLoading, setError, catching,
        startAll_fst, startAll_snd, hp, consoleLog, promiseAll_snd, loadTasks_fst]

/-- With an empty trimmed input `addTask` returns at once. -/
theorem addTask_noop (serve : R → Request → R × Settled) (w : World R)
    (h : trim w.session.inputValue = "") : addTask serve w = (Except.ok (), w) := by
  simp [addTask, bind, seq, getInputValue, h, pure, ret]

/-- With an empty `tasks` the function `clearAllTasks` returns at once. -/
theorem clearAllTasks_noop (serve : R → Request → R × Settled) (w : World R)
    (h : w.session.tasks = []) : clearAllTasks serve w = (Except.ok (), w) := by
  simp [clearAllTasks, bind, seq, getTasks, h, pure, ret]

/-- The whole result of `addTask` when its POST is rejected or answered outside 200-299. -/
theorem addTask_failed (serve : R → Request → R × Settled) (w : World R)
    (hne : trim w.session.inputValue ≠ "")
    (h : (∃ e, (serve w.remote (addTaskRequest ⟨trim w.session.inputValue, false⟩)).2 =
            Settled.rejected e) ∨
      (∃ resp, (serve w.remote (addTaskRequest ⟨trim w.session.inputValue, false⟩)).2 =
            Settled.fulfilled resp ∧ resp.ok = false)) :
    addTask serve w =
      (Except.ok (),
        { session := { tasks := w.session.tasks, inputValue := w.session.inputValue,
                       loading := false, error := "Failed to add task" },
          remote := (serve w.remote (addTaskRequest ⟨trim w.session.inputValue, false⟩)).1,
          sent := w.sent ++ [addTaskRequest ⟨trim w.session.inputValue, false⟩],
          console := w.console ++ ["Error adding task:"] }) := by
  rcases h with ⟨e, h⟩ | ⟨resp, h, hok⟩ <;>
  simp [addTask, bind, seq, getInputValue, hne, finallyDo, setLoading, setError, catching, fetch,
    startFetch, await, h, *, ret, raise, consoleLog]

/-- The whole result of `deleteTask` when its DELETE is rejected or answered outside 200-299. -/
theorem deleteTask_failed (serve : R → Request → R × Settled) (w : World R) (id : Nat)
    (h : (∃ e, (serve w.remote (deleteRequest id)).2 = Settled.rejected e) ∨
      (∃ resp, (serve w.remote (deleteRequest id)).2 = Settled.fulfilled resp ∧
        resp.ok = false)) :
    deleteTask serve id w =
      (Except.ok (),
        { session := { tasks := w.session.tasks, inputValue := w.session.inputValue,
                       loading := false, error := "Failed to delete task" },
          remote := (serve w.remote (deleteRequest id)).1,
          sent := w.sent ++ [deleteRequest id],
          console := w.console ++ ["Error deleting task:"] }) := by
  rcases h with ⟨e, h⟩ | ⟨resp, h, hok⟩ <;>
  simp [deleteTask, bind, seq, finallyDo, setLoading, setError, catching, fetch,
    startFetch, await, h, *, ret, raise, consoleLog]

/-- After a POST answered 2xx with a JSON body, `addTask` ends as the reload it calls, with `loading` false. -/
theorem addTask_reloads (serve : R → Request → R × Settled) (w : World R) (resp : Response)
    (d : Data) (hne : trim w.session.inputValue ≠ "")
    (h : (serve w.remote (addTaskRequest ⟨trim w.session.inputValue, false⟩)).2 =
      Settled.fulfilled resp)
    (hok : resp.ok = true) (hb : resp.body = Body.parsed d) :
    (addTask serve w).2 =
      (setLoading false (loadTasks serve
        { session := { tasks := w.session.tasks, inputValue := "", loading := true, error := "" },
          remote := (serve w.remote (addTaskRequest ⟨trim w.session.inputValue, false⟩)).1,
          sent := w.sent ++ [addTaskRequest ⟨trim w.session.inputValue, false⟩],
          console := w.console ++ ["Task added:"] }).2).2 := by
  simp [addTask, bind, seq, getInputValue, hne, finallyDo, setLoading, setError, catching, fetch,
    startFetch, await, h, hok, hb, ret, json, consoleLog, setInputValue, loadTasks_fst]

/-- After a DELETE answered 2xx, `deleteTask` ends as the reload it calls, with `loading` false. -/
theorem deleteTask_reloads (serve : R → Request → R × Settled) (w : World R) (id : Nat)
    (resp : Response)
    (h : (serve w.remote (deleteRequest id)).2 = Settled.fulfilled resp)
    (hok : resp.ok = true) :
    (deleteTask serve id w).2 =
      (setLoading false (loadTasks serve
        { session := { tasks := w.session.tasks, inputValue := w.session.inputValue,
                       loading := true, error := "" },
          remote := (serve w.remote (deleteRequest id)).1,
          sent := w.sent ++ [deleteRequest id],
          console := w.console ++ ["Task deleted successfully"] }).2).2 := by
  simp [deleteTask, bind, seq, finallyDo, setLoading, setError, catching, fetch,
    startFetch, await, h, hok, ret, consoleLog, loadTasks_fst]

/-- When every DELETE promise is fulfilled, whatever the status, `clearAllTasks` ends as the reload it calls. -/
theorem clearAllTasks_reloads (serve : R → Request → R × Settled) (w : World R)
    (hne : w.session.tasks ≠ [])
    (h : ∀ p ∈ outcomes serve w.remote (w.session.tasks.map fun task => deleteRequest task.id),
      ∃ resp, p = Settled.fulfilled resp) :
    (clearAllTasks serve w).2 =
      (setLoading false (loadTasks serve
        { session := { tasks := w.session.tasks, inputValue := w.session.inputValue,
                       loading := true, error := "" },
          remote := remoteAfter serve w.remote
            (w.session.tasks.map fun task => deleteRequest task.id),
          sent := w.sent ++ (w.session.tasks.map fun task => deleteRequest task.id),
          console := w.console ++ ["All tasks cleared"] }).2).2 := by
  obtain ⟨rs, hrs⟩ := promiseAll_ok _
    ({ session := { tasks := w.session.tasks, inputValue := w.session.inputValue,
                    loading := true, error := "" },
       remote := remoteAfter serve w.remote
         (w.session.tasks.map fun task => deleteRequest task.id),
       sent := w.sent ++ (w.session.tasks.map fun task => deleteRequest task.id),
       console := w.console } : World R) h
  simp [clearAllTasks, bind, seq, getTasks, hne, finallyDo, setLoading, setError, catching,
    startAll_fst, startAll_snd, hrs, consoleLog, promiseAll_snd, loadTasks_fst]

/-- When a DELETE promise is rejected, `clearAllTasks` reports its failure and does not reload. -/
theorem clearAllTasks_rejected (serve : R → Request → R × Settled) (w : World R)
    (hne : w.session.tasks ≠ [])
    (h : ∃ e, Settled.rejected e ∈
      outcomes serve w.remote (w.session.tasks.map fun task => deleteRequest task.id)) :
    clearAllTasks serve w =
      (Except.ok (),
        { session := { tasks := w.session.tasks, inputValue := w.session.inputValue,
                       loading := false, error := "Failed to clear all tasks" },
          remote := remoteAfter serve w.remote
            (w.session.tasks.map fun task => deleteRequest task.id),
          sent := w.sent ++ (w.session.tasks.map fun task => deleteRequest task.id),
          console := w.console ++ ["Error clearing tasks:"] }) := by
  obtain ⟨e, he⟩ := promiseAll_error _
    ({ session := { tasks := w.session.tasks, inputValue := w.session.inputValue,
                    loading := true, error := "" },
       remote := remoteAfter serve w.remote
         (w.session.tasks.map fun task => deleteRequest task.id),
       sent := w.sent ++ (w.session.tasks.map fun task => deleteRequest task.id),
       console := w.console } : World R) h
  simp [clearAllTasks, bind, seq, getTasks, hne, finallyDo, setLoading, setError, catching,
    startAll_fst, startAll_snd, he, consoleLog, promiseAll_snd]

/-- On a 400 answer `createUser` takes the branch that logs `User already exists`. -/
theorem createUser_console_conflict (serve : R → Request → R × Settled) (w : World R)
    (resp : Response) (h : (serve w.remote createUserRequest).2 = Settled.fulfilled resp)
    (h400 : resp.status = 400) :
    (createUser serve w).2.console = w.console ++ ["User already exists"] := by
  have hok : resp.ok = false := by simp [Response.ok, h400]
  simp [createUser, bind, seq, catching, fetch, startFetch, await, h, hok, h400, ret, consoleLog]

/-- The store `accountStore` creates an absent account and answers 201. -/
theorem accountStore_absent (r : List String) (hr : username ∉ accountSet r) :
    (∃ resp, (accountStore r createUserRequest).2 = Settled.fulfilled resp ∧ resp.ok = true) ∧
    accountSet (accountStore r createUserRequest).1 = insert username (accountSet r) := by
  have hr2 : username ∉ r := hr
  refine ⟨⟨{ status := 201, body := Body.unparsable }, ?_, by decide⟩, ?_⟩
  · simp [accountStore, hr2, plain]
  · ext u
    simp [accountStore, hr2, accountSet, Set.insert]

/-- The store `accountStore` answers 400 for an account it has and keeps its accounts. -/
theorem accountStore_present (r : List String) (hr : username ∈ accountSet r) :
    (∃ resp, (accountStore r createUserRequest).2 = Settled.fulfilled resp ∧
      resp.status = 400) ∧
    accountSet (accountStore r createUserRequest).1 = accountSet r := by
  have hr2 : username ∈ r := hr
  refine ⟨⟨{ status := 400, body := Body.unparsable }, ?_, rfl⟩, ?_⟩
  · simp [accountStore, hr2, plain]
  · simp [accountStore, hr2]

/-! ## Claims -/

/-- Claim C1 (the code departs from the claim). Scenario D with a DELETE answered 500:
`fetch` fulfils its promise on a 500 and `clearAllTasks` never reads `response.ok`, so
`Promise.all` resolves, the reload GET is issued, `error` ends empty and `tasks` is
what the GET returned; `deleteTask` on the same 500 does report its failure. -/
theorem clearAllTasks_status500_reloads :
    (clearAllTasks scripted
        (startWorld twoTasks [plain 200, plain 500, todosResponse [taskTwo]])).2.session =
      { tasks := [taskTwo], inputValue := "", loading := false, error := "" } ∧
    (clearAllTasks scripted
        (startWorld twoTasks [plain 200, plain 500, todosResponse [taskTwo]])).2.sent =
      [deleteRequest 1, deleteRequest 2, loadTasksRequest] ∧
    (deleteTask scripted 2 (startWorld twoTasks [plain 500])).2.session =
      { tasks := [taskOne, taskTwo], inputValue := "", loading := false,
        error := "Failed to delete task" } := by
  decide

/-- Claim C2 (counterexample). With `loading` already true, `addTask` on a blank input and
`clearAllTasks` on an empty list complete at once and leave `loading` true. -/
theorem noop_paths_leave_loading_true :
    (addTask scripted (startWorld blankBusy [])).1 = Except.ok () ∧
    (addTask scripted (startWorld blankBusy [])).2.session.loading = true ∧
    (clearAllTasks scripted (startWorld emptyBusy [])).1 = Except.ok () ∧
    (clearAllTasks scripted (startWorld emptyBusy [])).2.session.loading = true := by
  refine ⟨rfl, by decide, rfl, by decide⟩

/-- Claim C2 (amended). `loadTasks`, `deleteTask`, `addTask` and `clearAllTasks` always complete
without raising, from every world and for every remote store; `loading` is false at completion
of `loadTasks` and `deleteTask`, of `addTask` when the trimmed input is not empty and of
`clearAllTasks` when `tasks` is not empty. On the two no-op paths `loading` keeps its value. -/
theorem loading_reset_on_completion (serve : R → Request → R × Settled) (w : World R) (id : Nat) :
    ((loadTasks serve w).1 = Except.ok () ∧ (loadTasks serve w).2.session.loading = false) ∧
    ((deleteTask serve id w).1 = Except.ok () ∧
      (deleteTask serve id w).2.session.loading = false) ∧
    ((addTask serve w).1 = Except.ok () ∧
      (trim w.session.inputValue ≠ "" → (addTask serve w).2.session.loading = false) ∧
      (trim w.session.inputValue = "" →
        (addTask serve w).2.session.loading = w.session.loading)) ∧
    ((clearAllTasks serve w).1 = Except.ok () ∧
      (w.session.tasks ≠ [] → (clearAllTasks serve w).2.session.loading = false) ∧
      (w.session.tasks = [] →
        (clearAllTasks serve w).2.session.loading = w.session.loading)) := by
  refine ⟨⟨loadTasks_fst serve w, loadTasks_loading serve w⟩, ⟨delete_fst serve w id, ?_⟩,
    ⟨add_fst serve w, add_loading serve w, ?_⟩, ⟨clear_fst serve w, clear_loading serve w, ?_⟩⟩
  · simp [deleteTask, bind, seq, finallyDo, setLoading, setError]
  · intro h
    rw [addTask_noop serve w h]
  · intro h
    rw [clearAllTasks_noop serve w h]

/-- Witness of C2 (amended): the four implications at concrete worlds. -/
theorem loading_reset_on_completion_witness :
    (trim (startWorld typing [created, plain 500]).session.inputValue ≠ "" ∧
      (addTask scripted (startWorld typing [created, plain 500])).2.session.loading = false) ∧
    ((startWorld typing [created, plain 500]).session.tasks ≠ [] ∧
      (clearAllTasks scripted (startWorld typing [created, plain 500])).2.session.loading =
        false) ∧
    (trim (startWorld blankBusy []).session.inputValue = "" ∧
      (addTask scripted (startWorld blankBusy [])).2.session.loading = true) ∧
    ((startWorld emptyBusy []).session.tasks = [] ∧
      (clearAllTasks scripted (startWorld emptyBusy [])).2.session.loading = true) :=
  ⟨⟨by decide,
      (loading_reset_on_completion scripted (startWorld typing [created, plain 500]) 1).2.2.1.2.1
        (by decide)⟩,
    ⟨by decide,
      (loading_reset_on_completion scripted (startWorld typing [created, plain 500]) 1).2.2.2.2.1
        (by decide)⟩,
    ⟨by decide,
      (loading_reset_on_completion scripted (startWorld blankBusy []) 1).2.2.1.2.2 (by decide)⟩,
    ⟨by decide,
      (loading_reset_on_completion scripted (startWorld emptyBusy []) 1).2.2.2.2.2 (by decide)⟩⟩

/-- Claim C3. After a mutation that succeeds, `tasks` is exactly the list of the reload.
When the reload GET that follows is answered 2xx with `todos` equal to `L`:
`addTask` on a non-blank input whose POST is answered 2xx with a JSON body ends with
`tasks = L`, `error = ""` and `inputValue = ""`; `deleteTask` whose DELETE is answered
2xx, and `clearAllTasks` on a non-empty list whose DELETEs are all answered 2xx, end with
`tasks = L` and `error = ""`. -/
theorem reload_authoritative_after_mutation (serve : R → Request → R × Settled) (w : World R)
    (id : Nat) (getResp : Response) (L : List Task)
    (hget : getResp.ok = true) (hbody : getResp.body = Body.parsed (Data.object (some L))) :
    (∀ (postResp : Response) (d : Data),
      trim w.session.inputValue ≠ "" →
      (serve w.remote (addTaskRequest ⟨trim w.session.inputValue, false⟩)).2 =
        Settled.fulfilled postResp →
      postResp.ok = true → postResp.body = Body.parsed d →
      (serve (serve w.remote (addTaskRequest ⟨trim w.session.inputValue, false⟩)).1
        loadTasksRequest).2 = Settled.fulfilled getResp →
      (addTask serve w).2.session =
        { tasks := L, inputValue := "", loading := false, error := "" }) ∧
    (∀ (delResp : Response),
      (serve w.remote (deleteRequest id)).2 = Settled.fulfilled delResp →
      delResp.ok = true →
      (serve (serve w.remote (deleteRequest id)).1 loadTasksRequest).2 =
        Settled.fulfilled getResp →
      (deleteTask serve id w).2.session =
        { tasks := L, inputValue := w.session.inputValue, loading := false, error := "" }) ∧
    (w.session.tasks ≠ [] →
      (∀ p ∈ outcomes serve w.remote (w.session.tasks.map fun task => deleteRequest task.id),
        ∃ resp, p = Settled.fulfilled resp ∧ resp.ok = true) →
      (serve (remoteAfter serve w.remote (w.session.tasks.map fun task => deleteRequest task.id))
        loadTasksRequest).2 = Settled.fulfilled getResp →
      (clearAllTasks serve w).2.session =
        { tasks := L, inputValue := w.session.inputValue, loading := false, error := "" }) := by
  refine ⟨?_, ?_, ?_⟩
  · intro postResp d hne hpost hok hb hg
    rw [addTask_reloads serve w postResp d hne hpost hok hb,
      loadTasks_found serve _ getResp (some L) hg hget hbody]
    simp [setLoading]
  · intro delResp hdel hok hg
    rw [deleteTask_reloads serve w id delResp hdel hok,
      loadTasks_found serve _ getResp (some L) hg hget hbody]
    simp [setLoading]
  · intro hne hall hg
    rw [clearAllTasks_reloads serve w hne (fun p hp => (hall p hp).imp fun _ h => h.1),
      loadTasks_found serve _ getResp (some L) hg hget hbody]
    simp [setLoading]

/-- Witness of C3: Scenario B and its `deleteTask` and `clearAllTasks` counterparts. -/
theorem reload_authoritative_after_mutation_witness :
    (addTask scripted (startWorld typing [created, todosResponse [taskOne, taskTwo]])).2.session =
      { tasks := [taskOne, taskTwo], inputValue := "", loading := false, error := "" } ∧
    (deleteTask scripted 1 (startWorld typing [plain 204, todosResponse [taskOne, taskTwo]])).2.session =
      { tasks := [taskOne, taskTwo], inputValue := " walk dog ", loading := false, error := "" } ∧
    (clearAllTasks scripted (startWorld typing [plain 204, todosResponse [taskOne, taskTwo]])).2.session =
      { tasks := [taskOne, taskTwo], inputValue := " walk dog ", loading := false, error := "" } :=
  ⟨(reload_authoritative_after_mutation scripted
      (startWorld typing [created, todosResponse [taskOne, taskTwo]]) 1
      { status := 200, body := Body.parsed (Data.object (some [taskOne, taskTwo])) }
      [taskOne, taskTwo] (by decide) rfl).1
      { status := 201, body := Body.parsed (Data.object none) } (Data.object none)
      (by decide) rfl (by decide) rfl rfl,
    (reload_authoritative_after_mutation scripted
      (startWorld typing [plain 204, todosResponse [taskOne, taskTwo]]) 1
      { status := 200, body := Body.parsed (Data.object (some [taskOne, taskTwo])) }
      [taskOne, taskTwo] (by decide) rfl).2.1
      { status := 204, body := Body.unparsable } rfl (by decide) rfl,
    (reload_authoritative_after_mutation scripted
      (startWorld typing [plain 204, todosResponse [taskOne, taskTwo]]) 1
      { status := 200, body := Body.parsed (Data.object (some [taskOne, taskTwo])) }
      [taskOne, taskTwo] (by decide) rfl).2.2
      (by decide)
      (fun p (hp : p ∈ [plain 204]) =>
        ⟨{ status := 204, body := Body.unparsable }, List.mem_singleton.mp hp, by decide⟩)
      rfl⟩

/-- Claim C4. Validation skips change nothing: `addTask` with an input made only of white
space (or empty), and `clearAllTasks` with an empty `tasks`, return the world they were given:
same `tasks`, `inputValue`, `loading`, `error`, and no request issued. -/
theorem validation_skips_are_noops (serve : R → Request → R × Settled) (w : World R) :
    ((∀ c ∈ w.session.inputValue.data, isJsWhiteSpace c = true) →
      addTask serve w = (Except.ok (), w)) ∧
    (w.session.tasks = [] → clearAllTasks serve w = (Except.ok (), w)) :=
  ⟨fun h => addTask_noop serve w (trim_of_whiteSpace _ h), clearAllTasks_noop serve w⟩

/-- Witness of C4: a blank input and an empty list, both while `loading` is true. -/
theorem validation_skips_are_noops_witness :
    ((∀ c ∈ (startWorld blankBusy [created]).session.inputValue.data, isJsWhiteSpace c = true) ∧
      addTask scripted (startWorld blankBusy [created]) =
        (Except.ok (), startWorld blankBusy [created])) ∧
    ((startWorld emptyBusy [created]).session.tasks = [] ∧
      clearAllTasks scripted (startWorld emptyBusy [created]) =
        (Except.ok (), startWorld emptyBusy [created])) :=
  ⟨⟨by decide, (validation_skips_are_noops scripted (startWorld blankBusy [created])).1 (by decide)⟩,
    ⟨rfl, (validation_skips_are_noops scripted (startWorld emptyBusy [created])).2 rfl⟩⟩

/-- Claim C5. When the mutating request of `addTask` (non-blank input) or of `deleteTask`
fails, by a rejection of `fetch` or by a status outside 200-299, the operation completes
with its own message in `error` (`Failed to add task`, `Failed to delete task`), `tasks`
and `inputValue` as before the call, and the failed request as the only request issued,
so no reload GET. -/
theorem failed_mutation_keeps_state (serve : R → Request → R × Settled) (w : World R)
    (id : Nat) :
    (trim w.session.inputValue ≠ "" →
      ((∃ e, (serve w.remote (addTaskRequest ⟨trim w.session.inputValue, false⟩)).2 =
          Settled.rejected e) ∨
        (∃ resp, (serve w.remote (addTaskRequest ⟨trim w.session.inputValue, false⟩)).2 =
          Settled.fulfilled resp ∧ resp.ok = false)) →
      (addTask serve w).1 = Except.ok () ∧
      (addTask serve w).2.session =
        { tasks := w.session.tasks, inputValue := w.session.inputValue, loading := false,
          error := "Failed to add task" } ∧
      (addTask serve w).2.sent =
        w.sent ++ [addTaskRequest ⟨trim w.session.inputValue, false⟩]) ∧
    (((∃ e, (serve w.remote (deleteRequest id)).2 = Settled.rejected e) ∨
        (∃ resp, (serve w.remote (deleteRequest id)).2 = Settled.fulfilled resp ∧
          resp.ok = false)) →
      (deleteTask serve id w).1 = Except.ok () ∧
      (deleteTask serve id w).2.session =
        { tasks := w.session.tasks, inputValue := w.session.inputValue, loading := false,
          error := "Failed to delete task" } ∧
      (deleteTask serve id w).2.sent = w.sent ++ [deleteRequest id]) := by
  refine ⟨fun hne h => ?_, fun h => ?_⟩
  · rw [addTask_failed serve w hne h]
    exact ⟨rfl, rfl, rfl⟩
  · rw [deleteTask_failed serve w id h]
    exact ⟨rfl, rfl, rfl⟩

/-- Witness of C5: Scenario E (the POST is rejected) and a DELETE answered 500. -/
theorem failed_mutation_keeps_state_witness :
    ((addTask scripted (startWorld typing [])).2.session =
        { tasks := [taskOne], inputValue := " walk dog ", loading := false,
          error := "Failed to add task" } ∧
      (addTask scripted (startWorld typing [])).2.sent =
        [addTaskRequest { label := "walk dog", is_done := false }]) ∧
    ((deleteTask scripted 7 (startWorld typing [plain 500])).2.session =
        { tasks := [taskOne], inputValue := " walk dog ", loading := false,
          error := "Failed to delete task" } ∧
      (deleteTask scripted 7 (startWorld typing [plain 500])).2.sent = [deleteRequest 7]) :=
  ⟨((failed_mutation_keeps_state scripted (startWorld typing []) 7).1 (by decide)
      (Or.inl ⟨"TypeError: Failed to fetch", rfl⟩)).2,
    ((failed_mutation_keeps_state scripted (startWorld typing [plain 500]) 7).2
      (Or.inr ⟨{ status := 500, body := Body.unparsable }, rfl, by decide⟩)).2⟩

/-- Claim C6. When the GET of `loadTasks` is answered 404, `loadTasks` issues the GET and then
exactly one account-creation POST, and whatever the remote store does with that POST
(any status, or a rejection) it completes without raising, with `tasks = []` and
`error = ""`; `inputValue` is untouched and `loading` is false. -/
theorem reload_provisions_on_404 (serve : R → Request → R × Settled) (w : World R)
    (resp : Response)
    (h : (serve w.remote loadTasksRequest).2 = Settled.fulfilled resp)
    (h404 : resp.status = 404) :
    (loadTasks serve w).1 = Except.ok () ∧
    (loadTasks serve w).2.session =
      { tasks := [], inputValue := w.session.inputValue, loading := false, error := "" } ∧
    (loadTasks serve w).2.sent = w.sent ++ [loadTasksRequest, createUserRequest] :=
  ⟨(loadTasks_notFound serve w resp h h404).1, (loadTasks_notFound serve w resp h h404).2.1,
    (loadTasks_notFound serve w resp h h404).2.2.1⟩

/-- Witness of C6: Scenario A with the creation POST answered 500, rejected, and answered 400. -/
theorem reload_provisions_on_404_witness :
    (loadTasks scripted (startWorld typing [plain 404, plain 500])).2.session =
      { tasks := [], inputValue := " walk dog ", loading := false, error := "" } ∧
    (loadTasks scripted (startWorld typing [plain 404])).2.session =
      { tasks := [], inputValue := " walk dog ", loading := false, error := "" } ∧
    (loadTasks scripted (startWorld typing [plain 404, plain 400])).2.sent =
      [loadTasksRequest, createUserRequest] :=
  ⟨(reload_provisions_on_404 scripted (startWorld typing [plain 404, plain 500])
      { status := 404, body := Body.unparsable } rfl rfl).2.1,
    (reload_provisions_on_404 scripted (startWorld typing [plain 404])
      { status := 404, body := Body.unparsable } rfl rfl).2.1,
    (reload_provisions_on_404 scripted (startWorld typing [plain 404, plain 400])
      { status := 404, body := Body.unparsable } rfl rfl).2.2⟩

/-- Claim C7. When the GET of `loadTasks` is rejected, or answered with a status outside
200-299 other than 404, `loadTasks` completes with `tasks` (and `inputValue`) as before
the call and `error = "Failed to load tasks"`, and the GET is the only request issued:
no account-creation POST. -/
theorem reload_failure_keeps_tasks (serve : R → Request → R × Settled) (w : World R)
    (h : (∃ e, (serve w.remote loadTasksRequest).2 = Settled.rejected e) ∨
      (∃ resp, (serve w.remote loadTasksRequest).2 = Settled.fulfilled resp ∧
        resp.ok = false ∧ resp.status ≠ 404)) :
    (loadTasks serve w).1 = Except.ok () ∧
    (loadTasks serve w).2.session =
      { tasks := w.session.tasks, inputValue := w.session.inputValue, loading := false,
        error := "Failed to load tasks" } ∧
    (loadTasks serve w).2.sent = w.sent ++ [loadTasksRequest] ∧
    createUserRequest ≠ loadTasksRequest := by
  rw [loadTasks_failed serve w h]
  exact ⟨rfl, rfl, rfl, by decide⟩

/-- Witness of C7: a GET answered 503 and a GET that is rejected. -/
theorem reload_failure_keeps_tasks_witness :
    (loadTasks scripted (startWorld typing [plain 503])).2.session =
      { tasks := [taskOne], inputValue := " walk dog ", loading := false,
        error := "Failed to load tasks" } ∧
    (loadTasks scripted (startWorld typing [])).2.session =
      { tasks := [taskOne], inputValue := " walk dog ", loading := false,
        error := "Failed to load tasks" } :=
  ⟨(reload_failure_keeps_tasks scripted (startWorld typing [plain 503])
      (Or.inr ⟨{ status := 503, body := Body.unparsable }, rfl, by decide, by decide⟩)).2.1,
    (reload_failure_keeps_tasks scripted (startWorld typing [])
      (Or.inl ⟨"TypeError: Failed to fetch", rfl⟩)).2.1⟩

/-- Claim C8 (counterexample). A GET answered 200 with a body that is not JSON:
`response.json()` rejects, the `catch` of `loadTasks` sets `error`, and `tasks` keeps
the cached list. -/
theorem reload_2xx_unparsable_body_fails :
    Response.ok { status := 200, body := Body.unparsable } = true ∧
    (loadTasks scripted (startWorld twoTasks [plain 200])).2.session =
      { tasks := [taskOne, taskTwo], inputValue := "", loading := false,
        error := "Failed to load tasks" } ∧
    (loadTasks scripted (startWorld twoTasks [plain 200])).2.session.error ≠ "" := by
  decide

/-- Claim C8 (amended). For every world and every GET answered 2xx with a body that parses
to a JSON value other than `null`, `loadTasks` replaces `tasks` by the `todos` of the body,
as given (same elements, same order), and by `[]` when the body has no `todos`; `error` is
`""` afterwards and `inputValue` is unchanged. When the body of the 2xx answer does not
parse, or parses to `null`, `tasks` is unchanged and `error` is `Failed to load tasks`. -/
theorem reload_replaces_tasks (serve : R → Request → R × Settled) (w : World R)
    (resp : Response)
    (h : (serve w.remote loadTasksRequest).2 = Settled.fulfilled resp)
    (hok : resp.ok = true) :
    (∀ L, resp.body = Body.parsed (Data.object (some L)) →
      (loadTasks serve w).2.session =
        { tasks := L, inputValue := w.session.inputValue, loading := false, error := "" }) ∧
    (resp.body = Body.parsed (Data.object none) →
      (loadTasks serve w).2.session =
        { tasks := [], inputValue := w.session.inputValue, loading := false, error := "" }) ∧
    (resp.body = Body.unparsable ∨ resp.body = Body.parsed Data.null →
      (loadTasks serve w).2.session =
        { tasks := w.session.tasks, inputValue := w.session.inputValue, loading := false,
          error := "Failed to load tasks" }) := by
  refine ⟨fun L hb => ?_, fun hb => ?_, fun hb => ?_⟩
  · rw [loadTasks_found serve w resp (some L) h hok hb]
    rfl
  · rw [loadTasks_found serve w resp none h hok hb]
    rfl
  · rw [loadTasks_badBody serve w resp h hok hb]

/-- Witness of C8 (amended): a body with three todos, a body without `todos`, a body that is not JSON. -/
theorem reload_replaces_tasks_witness :
    (loadTasks scripted (startWorld typing [todosResponse [taskTwo, taskOne, taskTwo]])).2.session =
      { tasks := [taskTwo, taskOne, taskTwo], inputValue := " walk dog ", loading := false,
        error := "" } ∧
    (loadTasks scripted (startWorld typing [created])).2.session =
      { tasks := [], inputValue := " walk dog ", loading := false, error := "" } ∧
    (loadTasks scripted (startWorld typing [plain 200])).2.session =
      { tasks := [taskOne], inputValue := " walk dog ", loading := false,
        error := "Failed to load tasks" } :=
  ⟨(reload_replaces_tasks scripted (startWorld typing [todosResponse [taskTwo, taskOne, taskTwo]])
      { status := 200, body := Body.parsed (Data.object (some [taskTwo, taskOne, taskTwo])) }
      rfl (by decide)).1 [taskTwo, taskOne, taskTwo] rfl,
    (reload_replaces_tasks scripted (startWorld typing [created])
      { status := 201, body := Body.parsed (Data.object none) } rfl (by decide)).2.1 rfl,
    (reload_replaces_tasks scripted (startWorld typing [plain 200])
      { status := 200, body := Body.unparsable } rfl (by decide)).2.2 (Or.inl rfl)⟩

/-- Claim C9. `createUser` is idempotent. Against a remote store that answers the creation
POST with 2xx, adding the account, when the account is absent, and with 400, leaving the
accounts alone, when it is there: neither of two calls in a row raises, neither changes the
component state (so `error` is not set), the second call takes the `User already exists`
branch, and the accounts after the second call are those after the first. -/
theorem createUser_idempotent (serve : R → Request → R × Settled) (accounts : R → Set String)
    (hAbsent : ∀ r, username ∉ accounts r →
      (∃ resp, (serve r createUserRequest).2 = Settled.fulfilled resp ∧ resp.ok = true) ∧
      accounts (serve r createUserRequest).1 = insert username (accounts r))
    (hPresent : ∀ r, username ∈ accounts r →
      (∃ resp, (serve r createUserRequest).2 = Settled.fulfilled resp ∧ resp.status = 400) ∧
      accounts (serve r createUserRequest).1 = accounts r)
    (w : World R) :
    (createUser serve w).1 = Except.ok () ∧
    (createUser serve (createUser serve w).2).1 = Except.ok () ∧
    (createUser serve w).2.session = w.session ∧
    (createUser serve (createUser serve w).2).2.session = (createUser serve w).2.session ∧
    (createUser serve (createUser serve w).2).2.console =
      (createUser serve w).2.console ++ ["User already exists"] ∧
    accounts (createUser serve (createUser serve w).2).2.remote =
      accounts (createUser serve w).2.remote := by
  have hmem : username ∈ accounts (createUser serve w).2.remote := by
    rw [createUser_remote]
    by_cases hin : username ∈ accounts w.remote
    · rw [(hPresent _ hin).2]
      exact hin
    · rw [(hAbsent _ hin).2]
      exact Set.mem_insert _ _
  obtain ⟨⟨resp, hresp, h400⟩, hsame⟩ := hPresent _ hmem
  refine ⟨createUser_fst _ _, createUser_fst _ _, createUser_session _ _, createUser_session _ _,
    createUser_console_conflict serve _ resp hresp h400, ?_⟩
  rw [createUser_remote serve (createUser serve w).2]
  exact hsame

/-- Witness of C9: two calls against `accountStore`, starting without the account. -/
theorem createUser_idempotent_witness :
    (createUser accountStore (createUser accountStore (accountWorld typing ["someone"])).2).2.session =
      (createUser accountStore (accountWorld typing ["someone"])).2.session ∧
    accountSet (createUser accountStore
        (createUser accountStore (accountWorld typing ["someone"])).2).2.remote =
      accountSet (createUser accountStore (accountWorld typing ["someone"])).2.remote :=
  ⟨(createUser_idempotent accountStore accountSet accountStore_absent accountStore_present
      (accountWorld typing ["someone"])).2.2.2.1,
    (createUser_idempotent accountStore accountSet accountStore_absent accountStore_present
      (accountWorld typing ["someone"])).2.2.2.2.2⟩

/-- Claim C10. When the mutating request(s) of `addTask`, `deleteTask` or `clearAllTasks`
succeed and the reload GET that follows is rejected or answered with a status outside
200-299 other than 404, the operation completes without raising, `error` is
`Failed to load tasks` (the message of `loadTasks`, not the operation's own), `tasks` is as
before the call, and for `addTask` `inputValue` is already `""`. -/
theorem reload_failure_after_mutation (serve : R → Request → R × Settled) (w : World R)
    (id : Nat) :
    (∀ (postResp : Response) (d : Data),
      trim w.session.inputValue ≠ "" →
      (serve w.remote (addTaskRequest ⟨trim w.session.inputValue, false⟩)).2 =
        Settled.fulfilled postResp →
      postResp.ok = true → postResp.body = Body.parsed d →
      ((∃ e, (serve (serve w.remote (addTaskRequest ⟨trim w.session.inputValue, false⟩)).1
          loadTasksRequest).2 = Settled.rejected e) ∨
        (∃ resp, (serve (serve w.remote (addTaskRequest ⟨trim w.session.inputValue, false⟩)).1
          loadTasksRequest).2 = Settled.fulfilled resp ∧ resp.ok = false ∧ resp.status ≠ 404)) →
      (addTask serve w).1 = Except.ok () ∧
      (addTask serve w).2.session =
        { tasks := w.session.tasks, inputValue := "", loading := false,
          error := "Failed to load tasks" }) ∧
    (∀ (delResp : Response),
      (serve w.remote (deleteRequest id)).2 = Settled.fulfilled delResp →
      delResp.ok = true →
      ((∃ e, (serve (serve w.remote (deleteRequest id)).1 loadTasksRequest).2 =
          Settled.rejected e) ∨
        (∃ resp, (serve (serve w.remote (deleteRequest id)).1 loadTasksRequest).2 =
          Settled.fulfilled resp ∧ resp.ok = false ∧ resp.status ≠ 404)) →
      (deleteTask serve id w).1 = Except.ok () ∧
      (deleteTask serve id w).2.session =
        { tasks := w.session.tasks, inputValue := w.session.inputValue, loading := false,
          error := "Failed to load tasks" }) ∧
    (w.session.tasks ≠ [] →
      (∀ p ∈ outcomes serve w.remote (w.session.tasks.map fun task => deleteRequest task.id),
        ∃ resp, p = Settled.fulfilled resp ∧ resp.ok = true) →
      ((∃ e, (serve (remoteAfter serve w.remote
          (w.session.tasks.map fun task => deleteRequest task.id)) loadTasksRequest).2 =
          Settled.rejected e) ∨
        (∃ resp, (serve (remoteAfter serve w.remote
          (w.session.tasks.map fun task => deleteRequest task.id)) loadTasksRequest).2 =
          Settled.fulfilled resp ∧ resp.ok = false ∧ resp.status ≠ 404)) →
      (clearAllTasks serve w).1 = Except.ok () ∧
      (clearAllTasks serve w).2.session =
        { tasks := w.session.tasks, inputValue := w.session.inputValue, loading := false,
          error := "Failed to load tasks" }) := by
  refine ⟨?_, ?_, ?_⟩
  · intro postResp d hne hpost hok hb hg
    refine ⟨add_fst serve w, ?_⟩
    rw [addTask_reloads serve w postResp d hne hpost hok hb, loadTasks_failed serve _ hg]
    simp [setLoading]
  · intro delResp hdel hok hg
    refine ⟨delete_fst serve w id, ?_⟩
    rw [deleteTask_reloads serve w id delResp hdel hok, loadTasks_failed serve _ hg]
    simp [setLoading]
  · intro hne hall hg
    refine ⟨clear_fst serve w, ?_⟩
    rw [clearAllTasks_reloads serve w hne (fun p hp => (hall p hp).imp fun _ h => h.1),
      loadTasks_failed serve _ hg]
    simp [setLoading]

/-- Witness of C10: the reload GET answered 500 or rejected after a successful mutation. -/
theorem reload_failure_after_mutation_witness :
    (addTask scripted (startWorld typing [created, plain 500])).2.session =
      { tasks := [taskOne], inputValue := "", loading := false,
        error := "Failed to load tasks" } ∧
    (deleteTask scripted 1 (startWorld typing [plain 204])).2.session =
      { tasks := [taskOne], inputValue := " walk dog ", loading := false,
        error := "Failed to load tasks" } ∧
    (clearAllTasks scripted (startWorld typing [plain 204, plain 500])).2.session =
      { tasks := [taskOne], inputValue := " walk dog ", loading := false,
        error := "Failed to load tasks" } :=
  ⟨((reload_failure_after_mutation scripted (startWorld typing [created, plain 500]) 1).1
      { status := 201, body := Body.parsed (Data.object none) } (Data.object none)
      (by decide) rfl (by decide) rfl
      (Or.inr ⟨{ status := 500, body := Body.unparsable }, rfl, by decide, by decide⟩)).2,
    ((reload_failure_after_mutation scripted (startWorld typing [plain 204]) 1).2.1
      { status := 204, body := Body.unparsable } rfl (by decide)
      (Or.inl ⟨"TypeError: Failed to fetch", rfl⟩)).2,
    ((reload_failure_after_mutation scripted (startWorld typing [plain 204, plain 500]) 1).2.2
      (by decide)
      (fun p (hp : p ∈ [plain 204]) =>
        ⟨{ status := 204, body := Body.unparsable }, List.mem_singleton.mp hp, by decide⟩)
      (Or.inr ⟨{ status := 500, body := Body.unparsable }, rfl, by decide, by decide⟩)).2⟩

end TodoApp
